import Mathlib

/-!
# Verification of the SaveImages filename/path resolver

Shallow embedding of `src/pyCellProfiler/cellprofiler/modules/saveimages.py`
(module `SaveImages`): the filename resolver `get_filename` (lines 455-512),
the extension aliasing `get_file_format` (lines 513-520), the settings
migration `backwards_compatibilize` (lines 232-289) and the per-group
"first image" protocol (`prepare_group` lines 353-355, `run_image` lines
373-386).

Strings are modelled by Lean `String` (a list of characters, matching
Python's sequence-of-characters view).  The platform path separator
`os.path.sep` is modelled as the POSIX `"/"`.
-/

/-! ## String constants from saveimages.py lines 27-66 -/

def IF_IMAGE : String := "Image"
def IF_MASK : String := "Mask"
def IF_CROPPING : String := "Cropping"
def IF_FIGURE : String := "Figure"
def IF_MOVIE : String := "Movie"
def FF_BMP : String := "bmp"
def FF_GIF : String := "gif"
def FF_HDF : String := "hdf"
def FF_JPG : String := "jpg"
def FF_JPEG : String := "jpeg"
def FF_PBM : String := "pbm"
def FF_PCX : String := "pcx"
def FF_PGM : String := "pgm"
def FF_PNG : String := "png"
def FF_PNM : String := "pnm"
def FF_PPM : String := "ppm"
def FF_RAS : String := "ras"
def FF_TIF : String := "tif"
def FF_TIFF : String := "tiff"
def FF_XWD : String := "xwd"
def FF_AVI : String := "avi"
def FF_MAT : String := "mat"

/-- `os.path.sep` on the modelled (POSIX) platform. -/
def osSep : String := "/"

/-- Modelled from the spec: the sentinel `cps.DO_NOT_USE` comes from
`cellprofiler.settings`, which is not part of this snippet; the spec's
glossary calls it the reserved "do not use" value meaning a field is
intentionally unset.  The code only ever compares settings against it for
equality, so its concrete text is immaterial to every claim below. -/
def DO_NOT_USE : String := "Do not use"

/-! ## Python string/list primitives used by the module -/

/-- Python character slice `s[:n]`. -/
def pyTake (s : String) (n : Nat) : String := String.mk (s.data.take n)

/-- Python character slice `s[n:]`. -/
def pyDrop (s : String) (n : Nat) : String := String.mk (s.data.drop n)

/-- Python `s.startswith(p)`. -/
def pyStartsWith (s p : String) : Bool := p.data.isPrefixOf s.data

/-- Python `str.isdigit` restricted to ASCII digits (the migration code only
meets ASCII figure numbers): non-empty and all characters are digits. -/
def pyIsDigit (s : String) : Bool := s ≠ "" && s.data.all Char.isDigit

/-- Index of the last occurrence of `c`, as Python `s.rfind(c)` (with `none`
standing for Python's `-1`). -/
def lastIndexOf (c : Char) : List Char → Option Nat
  | [] => none
  | x :: xs =>
    match lastIndexOf c xs with
    | some i => some (i + 1)
    | none => if x = c then some 0 else none

/-- `os.path.join(a, b)` for POSIX paths, transcribing CPython's
`posixpath.join`: an absolute second component replaces the first; otherwise
a separator is inserted only when the accumulated path is non-empty and does
not already end with one. -/
def posixJoin (a b : String) : String :=
  if b.data.head? = some '/' then b
  else if a = "" ∨ a.data.getLast? = some '/' then a ++ b
  else a ++ "/" ++ b

/-- The root part of `os.path.splitext(p)` (POSIX), transcribing CPython's
generic splitext: the extension begins at the last `'.'` that lies after the
last separator, provided the base name has at least one non-dot character
before that dot (so names like `".bashrc"` keep their dot). -/
def splitextRoot (p : String) : String :=
  let cs := p.data
  let s := match lastIndexOf '/' cs with
    | none => 0
    | some si => si + 1
  match lastIndexOf '.' cs with
  | none => p
  | some d =>
    if s ≤ d ∧ ((cs.drop s).take (d - s)).any (fun ch => ch != '.') = true then
      String.mk (cs.take d)
    else p

/-! ## Metadata substitution

`workspace.measurements.apply_metadata` and
`cellprofiler.measurements.find_metadata_tokens` live in the measurements
module, which is not part of this snippet. -/

mutual
/-- Modelled from the spec: `apply_metadata` substitutes every `\g<tag>`
occurrence with `ctx.metadata[tag]` and fails (here: `none`, the spec's
`MissingMetadataTag`) when a referenced tag is absent. -/
def substMeta (md : List (String × String)) : List Char → Option (List Char)
  | [] => some []
  | '\\' :: 'g' :: '<' :: rest => substTag md [] rest
  | c :: rest => (substMeta md rest).map (fun r => c :: r)
termination_by l => l.length

/-- Helper for `substMeta`: scan the tag name up to the closing `'>'`. -/
def substTag (md : List (String × String)) (acc : List Char) :
    List Char → Option (List Char)
  | [] => none
  | c :: rest =>
    if c = '>' then
      match md.lookup (String.mk acc.reverse) with
      | some v => (substMeta md rest).map (fun r => v.data ++ r)
      | none => none
    else substTag md (acc ++ [c]) rest
termination_by l => l.length
end

/-- Modelled from the spec: string-level `apply_metadata`. -/
def applyMetadata (md : List (String × String)) (s : String) : Option String :=
  (substMeta md s.data).map String.mk

mutual
/-- Modelled from the spec: `find_metadata_tokens` returns the list of
`\g<tag>` tag names occurring in a template (a tag needs its closing `>`). -/
def findMetadataTokens : List Char → List String
  | [] => []
  | '\\' :: 'g' :: '<' :: rest => findTokensTag [] rest
  | _ :: rest => findMetadataTokens rest
termination_by l => l.length

/-- Helper for `findMetadataTokens`: scan a tag name up to `'>'`. -/
def findTokensTag (acc : List Char) : List Char → List String
  | [] => []
  | c :: rest =>
    if c = '>' then String.mk acc.reverse :: findMetadataTokens rest
    else findTokensTag (acc ++ [c]) rest
termination_by l => l.length
end

/-- `cellprofiler.measurements.find_metadata_tokens` on a string. -/
def find_metadata_tokens (s : String) : List String := findMetadataTokens s.data

/-! ## Data model: the settings read by `get_filename` and the per-call
context it draws from the workspace/measurements/preferences collaborators -/

/-- `self.file_name_method` (a `cps.Choice` over the four `FN_*` strings,
lines 184-187). -/
inductive FileNameMethod
  | fromImage      -- FN_FROM_IMAGE
  | sequential     -- FN_SEQUENTIAL
  | singleName     -- FN_SINGLE_NAME
  | withMetadata   -- FN_WITH_METADATA
deriving DecidableEq, Repr

/-- `self.pathname_choice` (a `cps.Choice` over the four `PC_*` strings,
lines 197-200). -/
inductive PathnameChoice
  | defaultDir          -- PC_DEFAULT
  | withImage           -- PC_WITH_IMAGE
  | custom              -- PC_CUSTOM
  | customWithMetadata  -- PC_WITH_METADATA
deriving DecidableEq, Repr

/-- The SaveImages settings consulted by `get_filename`/`get_file_format`. -/
structure SaveImagesConfig where
  file_name_method : FileNameMethod
  file_image_name : String
  single_file_name : String
  file_name_suffix : String
  /-- `self.file_format.value`: the selected extension string. -/
  file_format : String
  pathname_choice : PathnameChoice
  /-- `self.pathname`: the custom path template. -/
  pathname : String
  create_subdirectories : Bool
deriving DecidableEq, Repr

/-- The per-call context: values `get_filename` reads from the workspace,
the measurements store and the preferences collaborator. -/
structure RunContext where
  /-- `cpp.get_default_output_directory()`. -/
  defaultOutputDirectory : String
  /-- `measurements.image_set_number` (0-based; the code saves with
  `image_set_number + 1`). -/
  imageSetNumber : Nat
  /-- the metadata mapping backing `measurements.apply_metadata`. -/
  metadata : List (String × String)
  /-- measurement `FileName_<file_image_name>`: the recorded source file
  name. -/
  sourceFileName : String
  /-- measurement `PathName_<file_image_name>`: the recorded source file
  directory. -/
  sourcePathName : String
  /-- `image_set.legacy_fields['Pathname<file_image_name>']`: the root the
  source path is relative to. -/
  pathnameRoot : String
  /-- `image.path_name`: the provenance directory recorded on the image
  object itself (the fallback at lines 503-507). -/
  imagePathName : String
deriving DecidableEq, Repr

/-- The spec's 1-based `ctx.sequenceNumber`; the code renders it as
`measurements.image_set_number + 1` (line 466). -/
def sequenceNumber (ctx : RunContext) : Nat := ctx.imageSetNumber + 1

/-! ## get_filename (lines 455-512), split into its textual steps -/

/-- Lines 459-473: the base filename, by `file_name_method`.  `none` models
`apply_metadata` raising on a missing tag. -/
def baseFilename (cfg : SaveImagesConfig) (ctx : RunContext) : Option String :=
  match cfg.file_name_method with
  | .singleName => some cfg.single_file_name
  | .withMetadata => applyMetadata ctx.metadata cfg.single_file_name
  | .sequential =>
    some (cfg.single_file_name ++ toString (ctx.imageSetNumber + 1))
  | .fromImage =>
    let f := splitextRoot ctx.sourceFileName
    if cfg.file_name_suffix ≠ DO_NOT_USE then some (f ++ cfg.file_name_suffix)
    else some f

/-- Line 474: `filename = "%s.%s" % (filename, self.file_format.value)`. -/
def fullFilename (cfg : SaveImagesConfig) (ctx : RunContext) : Option String :=
  (baseFilename cfg ctx).map (fun f => f ++ "." ++ cfg.file_format)

/-- Lines 476-485 and 494-507: the directory before the subdirectory merge.
For `PC_WITH_IMAGE` with a method other than `FN_FROM_IMAGE` the code does
not raise: it falls back to the image's provenance `image.path_name`
(lines 503-507). -/
def step2Dir (cfg : SaveImagesConfig) (ctx : RunContext) : Option String :=
  match cfg.pathname_choice with
  | .defaultDir => some ctx.defaultOutputDirectory
  | .custom | .customWithMetadata =>
    match (if cfg.pathname_choice = .customWithMetadata
           then applyMetadata ctx.metadata cfg.pathname
           else some cfg.pathname) with
    | none => none
    | some p =>
      some (if pyTake p 2 = "." ++ osSep
            then posixJoin ctx.defaultOutputDirectory (pyDrop p 2)
            else p)
  | .withImage =>
    if cfg.file_name_method = .fromImage then
      some (posixJoin ctx.pathnameRoot ctx.sourcePathName)
    else
      some ctx.imagePathName

/-- Lines 486-492: the subdirectory merge.  It is syntactically inside the
`PC_DEFAULT/PC_CUSTOM/PC_WITH_METADATA` branch, so it never applies under
`PC_WITH_IMAGE`. -/
def resolvedDir (cfg : SaveImagesConfig) (ctx : RunContext) : Option String :=
  match cfg.pathname_choice with
  | .defaultDir | .custom | .customWithMetadata =>
    (step2Dir cfg ctx).map (fun p =>
      if cfg.file_name_method ∈
            [FileNameMethod.fromImage, .sequential, .withMetadata] ∧
          cfg.create_subdirectories = true
      then posixJoin p ctx.sourcePathName
      else p)
  | .withImage => step2Dir cfg ctx

/-- `SaveImages.get_filename` (lines 455-512): `os.path.join` of the
resolved directory and the full filename. -/
def get_filename (cfg : SaveImagesConfig) (ctx : RunContext) : Option String :=
  match fullFilename cfg ctx, resolvedDir cfg ctx with
  | some filename, some pathname => some (posixJoin pathname filename)
  | _, _ => none

/-- `SaveImages.get_file_format` (lines 513-520). -/
def get_file_format (cfg : SaveImagesConfig) : String :=
  if cfg.file_format = FF_JPG then FF_JPEG
  else if cfg.file_format = FF_TIF then FF_TIFF
  else cfg.file_format

/-! ## backwards_compatibilize (lines 232-289) -/

def FN_FROM_IMAGE : String := "From image filename"
def FN_SEQUENTIAL : String := "Sequential numbers"
def FN_SINGLE_NAME : String := "Single name"
def FN_WITH_METADATA : String := "Name with metadata"
def PC_DEFAULT : String := "Default output directory"
def PC_WITH_IMAGE : String := "Same directory as image"
def PC_CUSTOM : String := "Custom"
def PC_WITH_METADATA : String := "Custom with metadata"

/-- Lines 240-245, the `from_matlab` revision-13 block.  It copies the
setting values into `new_setting_values`, and for indices 3 and 12 the line
`new_setting_values[i] == cps.DO_NOT_USE` is an effect-free comparison (`==`,
not `=`); moreover `setting_values` is never reassigned from
`new_setting_values`, so the block passes the setting values through
unchanged and only the revision number advances. -/
def rev13_stage (setting_values : List String) : List String :=
  let _new_setting_values := setting_values
  setting_values

/-- Lines 246-288, the `from_matlab` revision-14 rewrite, transcribed with
Python indexing `sv[i]` as `List.getD sv i ""` (the module is only called on
lists long enough for every index it touches; Python would raise there) and
`sv[1][0] == '='` as a head test that is `false` on the empty string. -/
def rev14_stage (sv : List String) : List String :=
  let sv0 := sv.getD 0 ""
  let sv1 := sv.getD 1 ""
  let sv3 := sv.getD 3 ""
  let sv4 := sv.getD 4 ""
  let part1 :=
    if pyIsDigit sv0 then [IF_FIGURE, sv1]
    else if sv3 = FF_AVI then [IF_MOVIE, sv0]
    else if pyStartsWith sv0 "Cropping" then [IF_CROPPING, pyDrop sv0 8]
    else if pyStartsWith sv0 "CropMask" then [IF_MASK, pyDrop sv0 8]
    else [IF_IMAGE, sv0]
  let part1 := part1 ++ [part1.getD 1 ""]
  let part2 :=
    if sv1 = "N" then [FN_SEQUENTIAL, "None", "None"]
    else if sv1.data.head? = some '=' then
      [FN_SINGLE_NAME, pyDrop sv1 1, pyDrop sv1 1]
    else if (find_metadata_tokens sv1).length ≠ 0 then
      [FN_WITH_METADATA, sv1, sv1]
    else [FN_FROM_IMAGE, sv1, sv1]
  let part3 :=
    if sv4 = "." then [PC_DEFAULT, "None"]
    else if sv4 = "&" then [PC_WITH_IMAGE, "None"]
    else if (find_metadata_tokens sv1).length ≠ 0 then [PC_WITH_METADATA, sv4]
    else [PC_CUSTOM, sv4]
  part1 ++ part2 ++ (sv.drop 2).take 2 ++ part3 ++
    (sv.drop 5).take 6 ++ sv.drop 12

/-- `SaveImages.backwards_compatibilize` (lines 232-289): returns
`(setting_values, variable_revision_number, from_matlab)`. -/
def backwards_compatibilize (setting_values : List String)
    (variable_revision_number : Nat) (from_matlab : Bool) :
    List String × Nat × Bool :=
  let vrn :=
    if from_matlab = true ∧ variable_revision_number = 12 then 13
    else variable_revision_number
  let state :=
    if from_matlab = true ∧ vrn = 13 then (rev13_stage setting_values, 14)
    else (setting_values, vrn)
  if from_matlab = true ∧ state.2 = 14 then (rev14_stage state.1, 1, false)
  else (state.1, state.2, from_matlab)

/-! ## The per-group FIRST_IMAGE protocol (lines 353-355 and 373-386) -/

/-- `self.when_to_save` (a `cps.Choice` over the three `WS_*` strings). -/
inductive WhenToSave
  | everyCycle  -- WS_EVERY_CYCLE
  | firstCycle  -- WS_FIRST_CYCLE
  | lastCycle   -- WS_LAST_CYCLE
deriving DecidableEq, Repr

/-- `SaveImages.prepare_group` (lines 353-355): sets the module's
`FIRST_IMAGE` dictionary entry to `True`, whatever it was. -/
def prepare_group (_ : Bool) : Bool := true

/-- `SaveImages.run_image` (lines 373-386) acting on the `FIRST_IMAGE` flag:
returns `(new flag, whether save_image was invoked)`. -/
def run_image (when_to_save : WhenToSave) (firstImage : Bool) : Bool × Bool :=
  match when_to_save with
  | .firstCycle => if firstImage = false then (firstImage, false)
                   else (false, true)
  | .lastCycle => (firstImage, false)
  | .everyCycle => (firstImage, true)

/-- Events the pipeline driver sends to the module within a run. -/
inductive SaveEvent
  | prepareGroup
  | runImage
deriving DecidableEq, Repr

/-- Replay a list of driver events over the `FIRST_IMAGE` flag, recording
for each event whether `save_image` was invoked (`prepare_group` itself
never saves). -/
def runEvents (w : WhenToSave) : Bool → List SaveEvent → List Bool
  | _, [] => []
  | flag, .prepareGroup :: es => false :: runEvents w (prepare_group flag) es
  | flag, .runImage :: es =>
    let r := run_image w flag
    r.2 :: runEvents w r.1 es

/-- The selectable file formats (create_settings lines 192-196). -/
def FF_CHOICES : List String :=
  [FF_BMP, FF_GIF, FF_HDF, FF_JPG, FF_JPEG, FF_PBM, FF_PCX, FF_PGM, FF_PNG,
   FF_PNM, FF_PPM, FF_RAS, FF_TIF, FF_TIFF, FF_XWD, FF_AVI, FF_MAT]

/-! ## Helper lemmas -/

/-- `get_filename` as a bind/map over its two steps. -/
theorem get_filename_eq (cfg : SaveImagesConfig) (ctx : RunContext) :
    get_filename cfg ctx =
      (fullFilename cfg ctx).bind fun f =>
        (resolvedDir cfg ctx).map fun d => posixJoin d f := by
  unfold get_filename
  cases fullFilename cfg ctx <;> cases resolvedDir cfg ctx <;> rfl

/-- The second component of `os.path.join` is a suffix of the result. -/
theorem suffix_posixJoin (d f : String) : f.data <:+ (posixJoin d f).data := by
  unfold posixJoin
  split
  · exact List.suffix_refl _
  · split
    · rw [String.data_append]
      exact List.suffix_append _ _
    · rw [String.data_append]
      exact List.suffix_append _ _

/-- The dot-plus-extension tail is a suffix of the assembled filename. -/
theorem dotExt_suffix (b e : String) :
    ("." ++ e).data <:+ (b ++ "." ++ e).data := by
  rw [String.data_append, String.data_append, String.data_append,
    List.append_assoc]
  exact List.suffix_append _ _

/-- Every path produced by `get_filename` ends in `"."` followed by the
configured extension. -/
theorem get_filename_ext_suffix (cfg : SaveImagesConfig) (ctx : RunContext)
    (s : String) (h : get_filename cfg ctx = some s) :
    ("." ++ cfg.file_format).data <:+ s.data := by
  rw [get_filename_eq] at h
  cases hf : fullFilename cfg ctx with
  | none => rw [hf] at h; cases h
  | some f =>
    rw [hf] at h
    cases hd : resolvedDir cfg ctx with
    | none => rw [hd] at h; cases h
    | some d =>
      rw [hd] at h
      simp only [Option.some_bind, Option.map_some', Option.some.injEq] at h
      subst h
      unfold fullFilename at hf
      cases hb : baseFilename cfg ctx with
      | none => rw [hb] at hf; cases hf
      | some b =>
        rw [hb] at hf
        simp only [Option.map_some', Option.some.injEq] at hf
        subst hf
        exact (dotExt_suffix b cfg.file_format).trans (suffix_posixJoin d _)

/-- After `prepare_group`, once the flag is cleared no later `run_image`
saves again (FirstCycle mode). -/
theorem runEvents_firstCycle_false (k : Nat) (rest : List SaveEvent) :
    runEvents .firstCycle false (List.replicate k .runImage ++ rest) =
      List.replicate k false ++ runEvents .firstCycle false rest := by
  induction k with
  | zero => rfl
  | succ n ih => simp [List.replicate_succ, runEvents, run_image, ih]

/-! ## Claims -/

/-- C3: resolution is deterministic — identical `(NamingConfig, RunContext)`
inputs (same naming method, templates, extension, path mode, metadata
mapping, sequence number, source file name/path and default output
directory) give the same path string: `get_filename` is a pure function of
its two arguments. -/
theorem saveimages_C3 (cfg₁ cfg₂ : SaveImagesConfig) (ctx₁ ctx₂ : RunContext)
    (hc : cfg₁ = cfg₂) (hx : ctx₁ = ctx₂) :
    get_filename cfg₁ ctx₁ = get_filename cfg₂ ctx₂ := by
  subst hc
  subst hx
  rfl

def cfgC3 : SaveImagesConfig :=
  { file_name_method := .singleName, file_image_name := "DNA",
    single_file_name := "img", file_name_suffix := DO_NOT_USE,
    file_format := "png", pathname_choice := .defaultDir,
    pathname := ".", create_subdirectories := false }

def ctxC3 : RunContext :=
  { defaultOutputDirectory := "/out", imageSetNumber := 0, metadata := [],
    sourceFileName := "a.tif", sourcePathName := "", pathnameRoot := "",
    imagePathName := "" }

theorem saveimages_C3_witness :
    get_filename cfgC3 ctxC3 = get_filename cfgC3 ctxC3 :=
  saveimages_C3 cfgC3 cfgC3 ctxC3 ctxC3 rfl rfl

/-- C8: with `when_to_save = FirstCycle`, `prepare_group` resets the
per-group FIRST_IMAGE flag to true from any state, and in the event trace
`prepare_group` followed by `1 + k` `run_image` calls, `save_image` is
invoked exactly on the first `run_image` and on none of the `k` later ones,
until whatever events (e.g. the next `prepare_group`) follow. -/
theorem saveimages_C8 (f : Bool) (k : Nat) (rest : List SaveEvent) :
    prepare_group f = true ∧
    runEvents .firstCycle f
        (SaveEvent.prepareGroup :: SaveEvent.runImage ::
          (List.replicate k SaveEvent.runImage ++ rest)) =
      false :: true ::
        (List.replicate k false ++ runEvents .firstCycle false rest) := by
  refine ⟨rfl, ?_⟩
  simp [runEvents, prepare_group, run_image, runEvents_firstCycle_false]

/-- C9: for `from_matlab` configurations at revision 13, the revision-13
block passes every setting value through unchanged — including a value equal
to the single backslash string, since `new_setting_values[i] == cps.DO_NOT_USE`
is an effect-free comparison and `setting_values` is never reassigned — and
only the revision number advances to 14, whence `backwards_compatibilize`
behaves exactly as if called at revision 14 on the same values. -/
theorem saveimages_C9 (sv : List String) :
    rev13_stage sv = sv ∧
    backwards_compatibilize sv 13 true = backwards_compatibilize sv 14 true := by
  refine ⟨rfl, ?_⟩
  simp [backwards_compatibilize, rev13_stage]

/-- C10: `get_file_format` is idempotent — feeding its result back through
the jpg→jpeg / tif→tiff mapping returns it unchanged — and it is the
identity on every selectable format other than `"jpg"` and `"tif"`. -/
theorem saveimages_C10 (cfg : SaveImagesConfig) :
    get_file_format { cfg with file_format := get_file_format cfg } =
      get_file_format cfg ∧
    (cfg.file_format ∈ FF_CHOICES → cfg.file_format ≠ FF_JPG →
      cfg.file_format ≠ FF_TIF → get_file_format cfg = cfg.file_format) := by
  constructor
  · by_cases hj : cfg.file_format = FF_JPG
    · simp only [get_file_format, hj]
      decide
    · by_cases ht : cfg.file_format = FF_TIF
      · simp only [get_file_format, hj, ht]
        decide
      · simp [get_file_format, hj, ht]
  · intro _ hj ht
    simp [get_file_format, hj, ht]

def cfgC10 : SaveImagesConfig :=
  { file_name_method := .singleName, file_image_name := "DNA",
    single_file_name := "img", file_name_suffix := DO_NOT_USE,
    file_format := "png", pathname_choice := .defaultDir,
    pathname := ".", create_subdirectories := false }

theorem saveimages_C10_witness :
    get_file_format cfgC10 = cfgC10.file_format :=
  (saveimages_C10 cfgC10).2 (by decide) (by decide) (by decide)

/-- C5: with `method = Sequential` the base filename is the single-name
template followed by the unpadded decimal sequence number (the code's
`image_set_number + 1`), so resolving at consecutive sequence numbers yields
filenames that differ only in that numeric suffix (same template before it,
same `"." + extension` after it). -/
theorem saveimages_C5 (cfg : SaveImagesConfig) (ctx : RunContext)
    (h : cfg.file_name_method = .sequential) :
    baseFilename cfg ctx =
      some (cfg.single_file_name ++ toString (sequenceNumber ctx)) ∧
    fullFilename cfg ctx =
      some (cfg.single_file_name ++ toString (sequenceNumber ctx) ++ "." ++
        cfg.file_format) ∧
    fullFilename cfg { ctx with imageSetNumber := ctx.imageSetNumber + 1 } =
      some (cfg.single_file_name ++ toString (sequenceNumber ctx + 1) ++ "." ++
        cfg.file_format) := by
  refine ⟨?_, ?_, ?_⟩ <;> simp [baseFilename, fullFilename, h, sequenceNumber]

def cfgC5 : SaveImagesConfig :=
  { file_name_method := .sequential, file_image_name := "DNA",
    single_file_name := "Img", file_name_suffix := DO_NOT_USE,
    file_format := "png", pathname_choice := .defaultDir,
    pathname := ".", create_subdirectories := false }

def ctxC5 : RunContext :=
  { defaultOutputDirectory := "/out", imageSetNumber := 4, metadata := [],
    sourceFileName := "", sourcePathName := "", pathnameRoot := "",
    imagePathName := "" }

theorem saveimages_C5_witness :
    baseFilename cfgC5 ctxC5 =
      some (cfgC5.single_file_name ++ toString (sequenceNumber ctxC5)) ∧
    fullFilename cfgC5 ctxC5 =
      some (cfgC5.single_file_name ++ toString (sequenceNumber ctxC5) ++ "." ++
        cfgC5.file_format) ∧
    fullFilename cfgC5 { ctxC5 with imageSetNumber := ctxC5.imageSetNumber + 1 } =
      some (cfgC5.single_file_name ++ toString (sequenceNumber ctxC5 + 1) ++ "." ++
        cfgC5.file_format) :=
  saveimages_C5 cfgC5 ctxC5 rfl

/-- C6: with `method = FromImage` and the suffix equal to the "do not use"
sentinel, the filename is the source file name with its extension stripped
(`os.path.splitext` root) followed by `"."` and the configured extension,
with no suffix text; any other suffix value is appended verbatim between the
stripped base name and the extension. -/
theorem saveimages_C6 (cfg : SaveImagesConfig) (ctx : RunContext)
    (h : cfg.file_name_method = .fromImage) :
    (cfg.file_name_suffix = DO_NOT_USE →
      fullFilename cfg ctx =
        some (splitextRoot ctx.sourceFileName ++ "." ++ cfg.file_format)) ∧
    (cfg.file_name_suffix ≠ DO_NOT_USE →
      fullFilename cfg ctx =
        some (splitextRoot ctx.sourceFileName ++ cfg.file_name_suffix ++ "." ++
          cfg.file_format)) := by
  constructor <;> intro hs <;> simp [fullFilename, baseFilename, h, hs]

def cfgC6 : SaveImagesConfig :=
  { file_name_method := .fromImage, file_image_name := "DNA",
    single_file_name := "img", file_name_suffix := DO_NOT_USE,
    file_format := "png", pathname_choice := .defaultDir,
    pathname := ".", create_subdirectories := false }

def ctxC6 : RunContext :=
  { defaultOutputDirectory := "/out", imageSetNumber := 0, metadata := [],
    sourceFileName := "A01.tif", sourcePathName := "", pathnameRoot := "",
    imagePathName := "" }

theorem saveimages_C6_witness :
    fullFilename cfgC6 ctxC6 =
      some (splitextRoot ctxC6.sourceFileName ++ "." ++ cfgC6.file_format) :=
  (saveimages_C6 cfgC6 ctxC6 rfl).1 rfl

/-- C2: whenever the selected extension is the short form `"jpg"` (resp.
`"tif"`), every path `get_filename` produces ends in `".jpg"` (resp.
`".tif"`) exactly as configured, while `get_file_format` hands the encoder
the canonical long form `"jpeg"` (resp. `"tiff"`). -/
theorem saveimages_C2 (cfg : SaveImagesConfig) (ctx : RunContext) :
    (cfg.file_format = FF_JPG →
      (∀ s, get_filename cfg ctx = some s →
        (".jpg" : String).data <:+ s.data) ∧
      get_file_format cfg = FF_JPEG) ∧
    (cfg.file_format = FF_TIF →
      (∀ s, get_filename cfg ctx = some s →
        (".tif" : String).data <:+ s.data) ∧
      get_file_format cfg = FF_TIFF) := by
  constructor
  · intro hj
    refine ⟨fun s hs => ?_, by simp [get_file_format, hj]⟩
    have h := get_filename_ext_suffix cfg ctx s hs
    rw [hj] at h
    have he : ("." ++ FF_JPG : String) = ".jpg" := by decide
    rwa [he] at h
  · intro ht
    constructor
    · intro s hs
      have h := get_filename_ext_suffix cfg ctx s hs
      rw [ht] at h
      have he : ("." ++ FF_TIF : String) = ".tif" := by decide
      rwa [he] at h
    · simp only [get_file_format, ht]
      decide

def cfgC2 : SaveImagesConfig :=
  { file_name_method := .singleName, file_image_name := "DNA",
    single_file_name := "img", file_name_suffix := DO_NOT_USE,
    file_format := "jpg", pathname_choice := .defaultDir,
    pathname := ".", create_subdirectories := false }

def ctxC2 : RunContext :=
  { defaultOutputDirectory := "/out", imageSetNumber := 0, metadata := [],
    sourceFileName := "", sourcePathName := "", pathnameRoot := "",
    imagePathName := "" }

theorem saveimages_C2_witness :
    (".jpg" : String).data <:+ ("/out/img.jpg" : String).data ∧
    get_file_format cfgC2 = FF_JPEG :=
  ⟨((saveimages_C2 cfgC2 ctxC2).1 rfl).1 "/out/img.jpg" (by decide),
   ((saveimages_C2 cfgC2 ctxC2).1 rfl).2⟩

def cfgC1 : SaveImagesConfig :=
  { file_name_method := .sequential, file_image_name := "DNA",
    single_file_name := "img", file_name_suffix := DO_NOT_USE,
    file_format := "png", pathname_choice := .withImage,
    pathname := ".", create_subdirectories := false }

def ctxC1 : RunContext :=
  { defaultOutputDirectory := "/out", imageSetNumber := 4, metadata := [],
    sourceFileName := "", sourcePathName := "", pathnameRoot := "",
    imagePathName := "/imgdir" }

/-- C1 counterexample: with `pathMode = WithImageDir` and
`method = Sequential` (≠ FromImage), resolution does not fail — it returns a
path rooted at the image's own recorded directory `image.path_name`
(`"/imgdir"` here), contradicting the claimed `UnsupportedPathMode`
failure. -/
theorem saveimages_C1_counterexample :
    cfgC1.pathname_choice = PathnameChoice.withImage ∧
    cfgC1.file_name_method ≠ FileNameMethod.fromImage ∧
    get_filename cfgC1 ctxC1 = some "/imgdir/img5.png" ∧
    get_filename cfgC1 ctxC1 ≠ none := by decide

/-- C1 amended: with `pathMode = WithImageDir` and a naming method other
than `FromImage`, resolution does not fail with `UnsupportedPathMode`;
the code falls back to the provenance directory recorded on the image object
itself (`image.path_name`, lines 503-507) and joins the filename under that
fallback directory. -/
theorem saveimages_C1 (cfg : SaveImagesConfig) (ctx : RunContext)
    (hp : cfg.pathname_choice = .withImage)
    (hm : cfg.file_name_method ≠ .fromImage) :
    get_filename cfg ctx =
      (fullFilename cfg ctx).map (posixJoin ctx.imagePathName) := by
  have hd : resolvedDir cfg ctx = some ctx.imagePathName := by
    simp [resolvedDir, step2Dir, hp, hm]
  rw [get_filename_eq, hd]
  cases fullFilename cfg ctx <;> rfl

theorem saveimages_C1_witness :
    get_filename cfgC1 ctxC1 =
      (fullFilename cfgC1 ctxC1).map (posixJoin ctxC1.imagePathName) :=
  saveimages_C1 cfgC1 ctxC1 rfl (by decide)

/-- The Step-2 `Custom` directory rule exactly as claim C4 words it: the
two-character prefix `"." + separator` is replaced by the default output
directory with the leading `"."` stripped exactly once (plain string
replacement); other templates are used verbatim. -/
def customDirClaimC4 (defaultDir template : String) : String :=
  if pyTake template 2 = "." ++ osSep then defaultDir ++ pyDrop template 1
  else template

def cfgC4 : SaveImagesConfig :=
  { file_name_method := .singleName, file_image_name := "DNA",
    single_file_name := "img", file_name_suffix := DO_NOT_USE,
    file_format := "png", pathname_choice := .custom,
    pathname := "./a", create_subdirectories := false }

def ctxC4 : RunContext :=
  { defaultOutputDirectory := "/out/", imageSetNumber := 0, metadata := [],
    sourceFileName := "", sourcePathName := "", pathnameRoot := "",
    imagePathName := "" }

/-- C4 counterexample: with `customPathTemplate = "./a"` and
`defaultOutputDirectory = "/out/"` (trailing separator), the code resolves
the directory to `os.path.join("/out/", "a") = "/out/a"`, while the claim's
replace-the-prefix-with-the-default reading (the leading `"."` stripped
exactly once) yields `"/out//a"` — the two differ. -/
theorem saveimages_C4_counterexample :
    step2Dir cfgC4 ctxC4 = some "/out/a" ∧
    customDirClaimC4 ctxC4.defaultOutputDirectory cfgC4.pathname = "/out//a" ∧
    step2Dir cfgC4 ctxC4 ≠
      some (customDirClaimC4 ctxC4.defaultOutputDirectory cfgC4.pathname) := by
  decide

/-- C4 amended: with `pathMode = Custom`, a template starting with the
two-character prefix `"." + separator` resolves to
`os.path.join(defaultOutputDirectory, template[2:])` — the prefix is
replaced by the default output directory through the platform path join,
which inserts a single separator only when needed (so, unlike the literal
strip-the-dot-once string replacement, no doubled separator appears when
the default directory already ends with the separator); templates not
starting with that exact prefix are used verbatim. -/
theorem saveimages_C4 (cfg : SaveImagesConfig) (ctx : RunContext)
    (h : cfg.pathname_choice = .custom) :
    (pyTake cfg.pathname 2 = "." ++ osSep →
      step2Dir cfg ctx =
        some (posixJoin ctx.defaultOutputDirectory (pyDrop cfg.pathname 2))) ∧
    (pyTake cfg.pathname 2 ≠ "." ++ osSep →
      step2Dir cfg ctx = some cfg.pathname) := by
  constructor <;> intro hp <;> simp [step2Dir, h, hp]

theorem saveimages_C4_witness :
    step2Dir cfgC4 ctxC4 =
      some (posixJoin ctxC4.defaultOutputDirectory (pyDrop cfgC4.pathname 2)) :=
  (saveimages_C4 cfgC4 ctxC4 rfl).1 (by decide)

def cfgC7 : SaveImagesConfig :=
  { file_name_method := .fromImage, file_image_name := "DNA",
    single_file_name := "img", file_name_suffix := DO_NOT_USE,
    file_format := "png", pathname_choice := .withImage,
    pathname := ".", create_subdirectories := true }

def ctxC7 : RunContext :=
  { defaultOutputDirectory := "/out", imageSetNumber := 0, metadata := [],
    sourceFileName := "A01.tif", sourcePathName := "sub",
    pathnameRoot := "/r", imagePathName := "" }

/-- C7 counterexample: with `createSubdirectories = true` and
`method = FromImage` but `pathMode = WithImageDir`, the code performs no
subdirectory merge: the resolved directory stays the Step-2 directory
`"/r/sub"` instead of having `ctx.sourceFilePath = "sub"` appended under it
(`"/r/sub/sub"`) — the merge at lines 486-492 sits inside the
`PC_DEFAULT/PC_CUSTOM/PC_WITH_METADATA` branch only. -/
theorem saveimages_C7_counterexample :
    cfgC7.create_subdirectories = true ∧
    cfgC7.file_name_method = FileNameMethod.fromImage ∧
    resolvedDir cfgC7 ctxC7 = some "/r/sub" ∧
    resolvedDir cfgC7 ctxC7 ≠
      some (posixJoin "/r/sub" ctxC7.sourcePathName) := by decide

/-- C7 amended: when `createSubdirectories` is true, the method is one of
FromImage/Sequential/WithMetadata, **and** the path mode is one of
DefaultOutputDir/Custom/CustomWithMetadata (not WithImageDir), the recorded
source file path is appended under the Step-2 directory via
`os.path.join` — a directory join that inserts a single separator at the
join point when the directory does not already end with one — rather than
plain string concatenation; with `pathMode = WithImageDir` no subdirectory
merge occurs. -/
theorem saveimages_C7 (cfg : SaveImagesConfig) (ctx : RunContext)
    (hp : cfg.pathname_choice ≠ .withImage)
    (hm : cfg.file_name_method ∈
      [FileNameMethod.fromImage, .sequential, .withMetadata])
    (hc : cfg.create_subdirectories = true) :
    resolvedDir cfg ctx =
      (step2Dir cfg ctx).map fun p => posixJoin p ctx.sourcePathName := by
  cases hpc : cfg.pathname_choice <;>
    simp_all [resolvedDir, hm, hc]

def cfgC7w : SaveImagesConfig :=
  { file_name_method := .sequential, file_image_name := "DNA",
    single_file_name := "img", file_name_suffix := DO_NOT_USE,
    file_format := "png", pathname_choice := .defaultDir,
    pathname := ".", create_subdirectories := true }

def ctxC7w : RunContext :=
  { defaultOutputDirectory := "/out", imageSetNumber := 0, metadata := [],
    sourceFileName := "A01.tif", sourcePathName := "sub",
    pathnameRoot := "", imagePathName := "" }

theorem saveimages_C7_witness :
    resolvedDir cfgC7w ctxC7w =
      (step2Dir cfgC7w ctxC7w).map fun p => posixJoin p ctxC7w.sourcePathName :=
  saveimages_C7 cfgC7w ctxC7w (by decide) (by decide) rfl
